import Mathlib

/-! The greeter of `01 Basics/04 First Program with Browser/src/index.js`

A shallow embedding of the emitted JavaScript module:

```
"use strict";
Object.defineProperty(exports, "__esModule", { value: true });
function greet(name) {
    return `Hello, ${name}`;
}
const user = "Riyaz";
console.log(greet(user));
```

JavaScript strings are sequences of UTF-16 code units, so they are modelled as
lists of code units and not as Lean strings: `length`, `slice` and `+` all work
on code units, and a JavaScript string may hold a lone surrogate.  Functions of
the module are state-passing computations over a `World` that carries the
module's `exports` object and the lines written to standard output, and they
may end in a thrown error.
-/

namespace Greeter

/-! ## Strings -/

/-- One UTF-16 code unit. -/
abbrev CodeUnit := Fin 65536

/-- A JavaScript string value: a finite sequence of UTF-16 code units. -/
abbrev JSString := List CodeUnit

/-- UTF-16 encoding of one Unicode scalar value: itself below U+10000, a
surrogate pair above. -/
def encodeChar (c : Char) : List CodeUnit :=
  if c.toNat < 0x10000 then
    [Fin.ofNat c.toNat]
  else
    let v := c.toNat - 0x10000
    [Fin.ofNat (0xD800 + v / 0x400), Fin.ofNat (0xDC00 + v % 0x400)]

/-- The JavaScript string denoted by a source-text literal. -/
def utf16 (s : String) : JSString :=
  (s.data.map encodeChar).flatten

/-! ## Values and the `ToString` abstract operation -/

/-- The JavaScript values of the model.  `number n` is the Number whose
mathematical value is the integer `n`; it stands for integral Numbers of
magnitude below `10 ^ 21`, which `Number::toString` prints as plain decimal
digits.  Other Numbers and objects are outside the model. -/
inductive Value where
  | undefined
  | null
  | boolean (b : Bool)
  | number (n : Int)
  | string (s : JSString)
  | symbol (id : Nat)
  deriving DecidableEq

/-- The errors a computation can throw. -/
inductive JSError where
  | typeError
  deriving DecidableEq

/-- Decimal rendering of an integral Number (`Number::toString`, radix 10). -/
def numberToString (n : Int) : JSString :=
  if n < 0 then utf16 "-" ++ utf16 (Nat.repr n.natAbs) else utf16 (Nat.repr n.natAbs)

/-- The abstract operation `ToString` (ECMA-262, 7.1.17): it throws a
`TypeError` on a Symbol and returns a string otherwise. -/
def toStringValue : Value → Except JSError JSString
  | .undefined => .ok (utf16 "undefined")
  | .null => .ok (utf16 "null")
  | .boolean true => .ok (utf16 "true")
  | .boolean false => .ok (utf16 "false")
  | .number n => .ok (numberToString n)
  | .string s => .ok s
  | .symbol _ => .error .typeError

/-! ## The world: the module's `exports` object and standard output -/

/-- An own data property of an object. -/
structure Property where
  key : JSString
  value : Value
  writable : Bool
  enumerable : Bool
  configurable : Bool
  deriving DecidableEq

/-- The state the module runs in: the own properties of its `exports` object
and the lines written so far to standard output (each is followed by a line
feed on the stream). -/
structure World where
  exports : List Property
  stdout : List JSString
  deriving DecidableEq

/-- The world in which the runtime starts the module as a CommonJS module (the
format the `exports.__esModule` marker is emitted for): `exports` is bound to a
fresh, empty object and nothing is written. -/
def World.initial : World :=
  { exports := [], stdout := [] }

/-- The characters on the standard output stream: every written line followed
by a line feed. -/
def World.stdoutText (w : World) : JSString :=
  (w.stdout.map fun line => line ++ utf16 "\n").flatten

/-- A computation of the module: it reads and updates the world and either
returns a value or throws. -/
abbrev JS := StateT World (Except JSError)

/-- The value a finished computation returned, the final world forgotten. -/
def returned {α : Type} (r : Except JSError (α × World)) : Except JSError α :=
  r.map Prod.fst

/-- The lines on standard output when a computation finished. -/
def written {α : Type} (r : Except JSError (α × World)) : Except JSError (List JSString) :=
  r.map fun p => p.2.stdout

/-- The process exit status: 0 when the module ran to completion, 1 when an
error was thrown and not caught. -/
def exitStatus {α : Type} (r : Except JSError (α × World)) : Nat :=
  match r with
  | .ok _ => 0
  | .error _ => 1

/-- The call `Object.defineProperty(exports, key, { value: v })`.  A new
property gets the default attributes (all `false`); redefining a property that
is neither configurable nor writable with a different value throws a
`TypeError`. -/
def defineProperty (key : JSString) (v : Value) : JS Unit := fun w =>
  match w.exports.find? fun p => p.key = key with
  | none =>
    .ok ((), { w with exports := w.exports ++
      [{ key := key, value := v, writable := false, enumerable := false,
         configurable := false }] })
  | some current =>
    if !current.configurable && !current.writable && current.value ≠ v then
      .error .typeError
    else
      .ok ((), { w with exports := w.exports.map fun p =>
        if p.key = key then { p with value := v } else p })

/-- The call `console.log(s)` on a string: it writes `s` and a line feed. -/
def consoleLog (s : JSString) : JS Unit := fun w =>
  .ok ((), { w with stdout := w.stdout ++ [s] })

/-! ## The module -/

/-- The function `greet`: the template literal with the cooked spans
`"Hello, "` and `""` around the substitution `ToString(name)`. -/
def greet (name : Value) : JS JSString := do
  let text ← liftM (toStringValue name)
  return utf16 "Hello, " ++ text ++ utf16 ""

/-- The constant `user`. -/
def user : Value :=
  .string (utf16 "Riyaz")

/-- The module body, statement by statement. -/
def index : JS Unit := do
  defineProperty (utf16 "__esModule") (.boolean true)
  let greeting ← greet user
  consoleLog greeting

/-! ## Helper lemmas -/

/-- The seven code units of the literal `"Hello, "`: H, e, l, l, o, comma,
space. -/
theorem utf16_hello : utf16 "Hello, " = [72, 101, 108, 108, 111, 44, 32] := by
  decide

/-- The literal `"Hello, "` has seven code units. -/
theorem utf16_hello_length : (utf16 "Hello, ").length = 7 := by
  decide

/-- The empty cooked span after the substitution contributes nothing. -/
theorem utf16_empty : utf16 "" = [] := by
  decide

/-- On a string argument `greet` returns the literal followed by the argument
and hands the world back as it got it. -/
theorem greet_string_run (s : JSString) (w : World) :
    greet (.string s) w = .ok (utf16 "Hello, " ++ s, w) := by
  show Except.ok (utf16 "Hello, " ++ s ++ utf16 "", w) = _
  rw [utf16_empty, List.append_nil]

/-- The value `greet` returns on a string argument. -/
theorem returned_greet_string (s : JSString) (w : World) :
    returned (greet (.string s) w) = .ok (utf16 "Hello, " ++ s) := by
  rw [greet_string_run]
  rfl

/-- On a Symbol the substitution throws: the error branch of `greet` is
reachable, only not from a string. -/
theorem greet_symbol_throws (id : Nat) (w : World) :
    greet (.symbol id) w = .error .typeError := by
  rfl

/-! ## The contract of `greet` -/

/-- C1: for every string `s` and in every world, `greet(s)` returns the seven
code units H, e, l, l, o, comma, space followed by the code units of `s`
unchanged, nothing inserted, removed or altered; on the empty string it returns
exactly `"Hello, "`. -/
theorem greet_eq_hello_append (s : JSString) (w : World) :
    returned (greet (.string s) w) = .ok ([72, 101, 108, 108, 111, 44, 32] ++ s)
      ∧ returned (greet (.string []) w) = .ok (utf16 "Hello, ")
      ∧ utf16 "Hello, " = [72, 101, 108, 108, 111, 44, 32] := by
  refine ⟨?_, ?_, utf16_hello⟩
  · rw [returned_greet_string, utf16_hello]
  · rw [returned_greet_string, List.append_nil]

/-- C2: on the fixed input `"Riyaz"`, `greet` returns exactly the string
`"Hello, Riyaz"`, in every world. -/
theorem greet_riyaz (w : World) :
    returned (greet (.string (utf16 "Riyaz")) w) = .ok (utf16 "Hello, Riyaz")
      ∧ returned (greet user w) = .ok (utf16 "Hello, Riyaz")
      ∧ utf16 "Hello, Riyaz"
          = [72, 101, 108, 108, 111, 44, 32, 82, 105, 121, 97, 122] := by
  refine ⟨?_, ?_, by decide⟩
  · rw [returned_greet_string]
    rfl
  · unfold user
    rw [returned_greet_string]
    rfl

/-- C3: for every string `s`, `greet(s)` returns a string that begins with
`"Hello, "`, ends with `s`, and has length exactly `7 + length(s)`. -/
theorem greet_begins_ends_length (s : JSString) (w : World) :
    ∃ r, returned (greet (.string s) w) = .ok r
      ∧ utf16 "Hello, " <+: r ∧ s <:+ r ∧ r.length = 7 + s.length := by
  refine ⟨utf16 "Hello, " ++ s, returned_greet_string s w, ?_, ?_, ?_⟩
  · exact ⟨s, rfl⟩
  · exact ⟨utf16 "Hello, ", rfl⟩
  · rw [List.length_append, utf16_hello_length]

/-- C5: on every string `greet` returns a value and never takes the error
branch, whatever the world it is called in. -/
theorem greet_string_never_throws (s : JSString) (w : World) :
    (∃ r w1, greet (.string s) w = .ok (r, w1))
      ∧ (∀ e, greet (.string s) w ≠ .error e)
      ∧ toStringValue (.string s) = .ok s := by
  refine ⟨⟨_, _, greet_string_run s w⟩, ?_, rfl⟩
  intro e h
  rw [greet_string_run] at h
  cases h

/-- C10: the name is recoverable from the greeting: dropping the first seven
code units of `greet(s)` yields `s`, and so `greet` is injective on strings,
whatever the worlds the two calls are made in. -/
theorem greet_drop_seven_injective :
    (∀ (s : JSString) (w : World),
        (returned (greet (.string s) w)).map (List.drop 7) = .ok s)
      ∧ (∀ (s t : JSString) (w₁ w₂ : World),
        returned (greet (.string s) w₁) = returned (greet (.string t) w₂) → s = t) := by
  constructor
  · intro s w
    rw [returned_greet_string, utf16_hello]
    rfl
  · intro s t w₁ w₂ h
    rw [returned_greet_string, returned_greet_string] at h
    exact List.append_cancel_left (Except.ok.inj h)

/-- C10 at a concrete input: two greetings of `"Riyaz"` are equal, and the
names are. -/
theorem greet_drop_seven_injective_witness :
    returned (greet (.string (utf16 "Riyaz")) World.initial)
        = returned (greet (.string [82, 105, 121, 97, 122]) World.initial)
      ∧ utf16 "Riyaz" = [82, 105, 121, 97, 122] :=
  ⟨rfl, greet_drop_seven_injective.2 _ _ World.initial World.initial rfl⟩

/-! ## Purity of `greet` -/

/-- C6: `greet` is deterministic and keeps no hidden state: the string it
returns on `s` is the same in any two worlds, and when it is called on `s`,
then any computation at all runs, then it is called on `s` again, the two
results are equal. -/
theorem greet_deterministic :
    (∀ (s : JSString) (w₁ w₂ : World),
        returned (greet (.string s) w₁) = returned (greet (.string s) w₂))
      ∧ (∀ (β : Type) (between : JS β) (s a b : JSString) (w w1 : World),
        (do
          let first ← greet (.string s)
          let _ ← between
          let second ← greet (.string s)
          pure (first, second) : JS (JSString × JSString)) w = .ok ((a, b), w1) →
        a = b) := by
  constructor
  · intro s w₁ w₂
    rw [returned_greet_string, returned_greet_string]
  · intro β between s a b w w1 h
    have h1 : (greet (.string s) w >>= fun p =>
        between p.2 >>= fun q =>
          greet (.string s) q.2 >>= fun r =>
            (Except.ok ((p.1, r.1), r.2) : Except JSError _)) = .ok ((a, b), w1) := h
    rw [greet_string_run] at h1
    cases hb : between w with
    | error e =>
      have h2 : (between w >>= fun q =>
          greet (.string s) q.2 >>= fun r =>
            (Except.ok ((utf16 "Hello, " ++ s, r.1), r.2) : Except JSError _))
          = .ok ((a, b), w1) := h1
      rw [hb] at h2
      cases h2
    | ok q =>
      have h2 : (between w >>= fun q =>
          greet (.string s) q.2 >>= fun r =>
            (Except.ok ((utf16 "Hello, " ++ s, r.1), r.2) : Except JSError _))
          = .ok ((a, b), w1) := h1
      rw [hb] at h2
      have h3 : (greet (.string s) q.2 >>= fun r =>
            (Except.ok ((utf16 "Hello, " ++ s, r.1), r.2) : Except JSError _))
          = .ok ((a, b), w1) := h2
      rw [greet_string_run] at h3
      have h4 : ((utf16 "Hello, " ++ s, utf16 "Hello, " ++ s), q.2) = ((a, b), w1) :=
        Except.ok.inj h3
      have h5 := congrArg (fun x => x.1.1) h4
      have h6 := congrArg (fun x => x.1.2) h4
      exact h5.symm.trans h6

/-- C6 at a concrete input: between two calls on `"Riyaz"` a line is written
to standard output, and the two results are equal. -/
theorem greet_deterministic_witness :
    (do
      let first ← greet (.string (utf16 "Riyaz"))
      let _ ← consoleLog (utf16 "in between")
      let second ← greet (.string (utf16 "Riyaz"))
      pure (first, second) : JS (JSString × JSString)) World.initial
        = .ok ((utf16 "Hello, Riyaz", utf16 "Hello, Riyaz"),
            { exports := [], stdout := [utf16 "in between"] })
      ∧ utf16 "Hello, Riyaz" = utf16 "Hello, Riyaz" :=
  ⟨rfl, greet_deterministic.2 Unit (consoleLog (utf16 "in between")) (utf16 "Riyaz")
    _ _ World.initial _ rfl⟩

/-- Whether it returns or throws, `Object.defineProperty` on `exports` writes
nothing to standard output. -/
theorem defineProperty_stdout (key : JSString) (v : Value) (w : World) :
    written (defineProperty key v w) = .ok w.stdout
      ∨ defineProperty key v w = .error .typeError := by
  unfold defineProperty
  split
  · exact Or.inl rfl
  · split
    · exact Or.inr rfl
    · exact Or.inl rfl

/-- C7: `greet` has no side effect: called on any string it hands back the
world, standard output included, exactly as it got it.  The write to standard
output is the one of `console.log` in the module body: `Object.defineProperty`
writes nothing, `console.log` appends its line, and the module started with
`out` already written ends with `out` and the one line appended. -/
theorem greet_no_side_effect :
    (∀ (s : JSString) (w : World), ∃ r, greet (.string s) w = .ok (r, w))
      ∧ (∀ (s : JSString) (w : World), written (greet (.string s) w) = .ok w.stdout)
      ∧ (∀ (key : JSString) (v : Value) (w : World),
        written (defineProperty key v w) = .ok w.stdout
          ∨ defineProperty key v w = .error .typeError)
      ∧ (∀ (t : JSString) (w : World),
        consoleLog t w = .ok ((), { exports := w.exports, stdout := w.stdout ++ [t] }))
      ∧ (∀ out : List JSString,
        written (index { exports := [], stdout := out })
          = .ok (out ++ [utf16 "Hello, Riyaz"])) := by
  refine ⟨fun s w => ⟨_, greet_string_run s w⟩, ?_, defineProperty_stdout,
    fun _ _ => rfl, fun _ => rfl⟩
  intro s w
  rw [greet_string_run]
  rfl

/-! ## A number where a string is expected -/

/-- C9: `greet` makes no runtime type check: applied to the number 1 it does
not throw and returns `"Hello, 1"`, the literal followed by the decimal
rendering of the number, the same result as `greet("1")`. -/
theorem greet_number_one (w : World) :
    greet (.number 1) w = .ok (utf16 "Hello, 1", w)
      ∧ greet (.number 1) w = greet (.string (utf16 "1")) w
      ∧ utf16 "Hello, 1" = utf16 "Hello, " ++ numberToString 1
      ∧ numberToString 1 = [49] := by
  refine ⟨rfl, rfl, by decide, by decide⟩

/-! ## The whole program -/

/-- C4: started by the runtime with nothing written, the module runs to
completion: exactly one line is on standard output, the line `Hello, Riyaz`,
followed on the stream by a line feed and nothing else, and the exit status
is 0. -/
theorem index_prints_hello_riyaz :
    ∃ w, index World.initial = .ok ((), w)
      ∧ w.stdout = [utf16 "Hello, Riyaz"]
      ∧ w.stdoutText = utf16 "Hello, Riyaz\n"
      ∧ w.stdoutText
          = [72, 101, 108, 108, 111, 44, 32, 82, 105, 121, 97, 122, 10]
      ∧ exitStatus (index World.initial) = 0 := by
  refine ⟨{ exports := [⟨utf16 "__esModule", .boolean true, false, false, false⟩],
            stdout := [utf16 "Hello, Riyaz"] }, rfl, rfl, by decide, by decide, rfl⟩

end Greeter
